import Mathlib

/-!
# Verification of the performance-test ingestion engine

Shallow embedding of the core of `oshadmon/performance-test`:
the size planner `__calculate_row_count`, the ingestion client
`send_request`, the connection bookkeeping of `insert_data`, and the
scheduler loop of `main` (all in `src/insert_data.py`), together with
the simpler single-threaded variant in `src/main.py`.

Numbers: Python ints are modelled as `ℤ` (or `ℕ` where the source
value is a count that cannot go negative).  The size-planner path
converts the matched size string with `float(...)` and computes
`int(total_bytes // row_size_bytes)`; all claim-relevant inputs are
exactly representable, so the float arithmetic is idealised as exact
arithmetic: the parsed decimal `<digits>.<digits>` is kept as an exact
mantissa/scale pair and the final floor is a natural-number division
`mantissa * multiplier / (10 ^ scale * row_size_bytes)`, which equals
`floor(number * multiplier / row_size_bytes)` exactly.
-/

namespace PerfTest

/-! ## Size planner (`__calculate_row_count`, src/insert_data.py lines 25-58) -/

/-- ASCII whitespace removed by the Python strip method. -/
def isSpaceChar (c : Char) : Bool :=
  c = ' ' || c = '\t' || c = '\n' || c = '\r' || c = '\x0b' || c = '\x0c'

/-- The strip call on the size string: drop whitespace at both ends. -/
def trimChars (cs : List Char) : List Char :=
  ((cs.dropWhile isSpaceChar).reverse.dropWhile isSpaceChar).reverse

/-- Maximal leading run of decimal digits, and the remainder. -/
def takeDigits : List Char → List Char × List Char
  | [] => ([], [])
  | c :: cs =>
    if c.isDigit then
      let p := takeDigits cs
      (c :: p.1, p.2)
    else ([], c :: cs)

/-- Value of a string of decimal digits. -/
def digitsToNat (ds : List Char) : ℕ :=
  ds.foldl (fun acc c => 10 * acc + (c.toNat - 48)) 0

/-- The decimal number matched by group 1 of
the size regex — digits, an optional dot plus digits, then letters,
anchored at both ends — kept exactly:
its value is `mantissa / 10 ^ scale`. -/
structure SizeNum where
  mantissa : ℕ
  scale : ℕ
deriving DecidableEq

/-- The regex match (shape test plus `float(...)` on group 1 and
`.upper()` on group 2), applied after `takeDigits` has already split
off the leading integer digits `ip` from the remainder `rest`. -/
def parseAfter (ip rest : List Char) : Option (SizeNum × String) :=
  if ip = [] then none
  else
    match rest with
    | '.' :: r2 =>
      let q := takeDigits r2
      if q.1 = [] then none
      else if q.2 ≠ [] && q.2.all Char.isAlpha then
        some (⟨digitsToNat ip * 10 ^ q.1.length + digitsToNat q.1, q.1.length⟩,
          String.mk (q.2.map Char.toUpper))
      else none
    | _ =>
      if rest ≠ [] && rest.all Char.isAlpha then
        some (⟨digitsToNat ip, 0⟩, String.mk (rest.map Char.toUpper))
      else none

/-- Parse `size_str.strip()` as `<number><unit-letters>`; `none` models
the `ValueError("Invalid size format...")` exit. -/
def parseSizeStr (s : String) : Option (SizeNum × String) :=
  let p := takeDigits (trimChars s.data)
  parseAfter p.1 p.2

/-- The `size_multiplier` dict of `__calculate_row_count`; `none` models
the `ValueError("Unsupported unit...")` exit. -/
def size_multiplier (u : String) : Option ℕ :=
  if u = "B" then some 1
  else if u = "KB" then some 1024
  else if u = "MB" then some (1024 ^ 2)
  else if u = "GB" then some (1024 ^ 3)
  else if u = "TB" then some (1024 ^ 4)
  else none

/-- The list comprehension building `column_names`: the names
`column_1 .. column_numColumns`. -/
def column_names (n : ℕ) : List String :=
  (List.range n).map (fun i => "column_" ++ toString (i + 1))

/-- `__calculate_row_count(num_columns, size_str)` for a string
argument: the all-digits fast path (`size_str.isdigit()`) returns the
count directly; otherwise the size is parsed, the per-row size is
estimated as `row_size_bytes = num_columns * 8 + 8`, and the row
ceiling is `int(total_bytes // row_size_bytes)` — here the exact
`mantissa * mult / (10 ^ scale * row_size_bytes)` in `ℕ`, which is
`floor(number * mult / row_size_bytes)`.  `none` models the two
`ValueError` exits. -/
def calculate_row_count (numColumns : ℕ) (sizeStr : String) :
    Option (List String × ℤ) :=
  if sizeStr.data ≠ [] ∧ sizeStr.data.all Char.isDigit then
    some (column_names numColumns, (digitsToNat sizeStr.data : ℤ))
  else
    match parseSizeStr sizeStr with
    | none => none
    | some nu =>
      match size_multiplier nu.2 with
      | none => none
      | some mult =>
        some (column_names numColumns,
          ((nu.1.mantissa * mult / (10 ^ nu.1.scale * (numColumns * 8 + 8)) : ℕ) : ℤ))

/-! ## Ingestion client (`send_request`, src/insert_data.py lines 88-117)

`send_request` is driven by a response oracle `resp : ℕ → Resp` giving,
for each attempt number (1-based, as in the Python `range(1, retries + 1)`
loop), either the HTTP status the endpoint answers or an exception raised
by `http.request` itself (endpoint unreachable).  The embedding returns
the number of attempts actually made (calls to `http.request`), the list
of back-off sleeps performed in order (arguments of `time.sleep`), and
the result: success or the raised error. -/

/-- Outcome of one `http.request` call: a status, or a raised exception. -/
inductive Resp where
  | ok (status : ℕ)
  | exn (msg : String)

/-- The errors `send_request` can raise: the final-failure exception
built on the last attempt in the except branch — its message carries
conn, table name, retry count, the wrapped inner error and a truncated
payload preview (src/insert_data.py lines 111-114) — and the
unreachable exception after the loop, whose message carries only the
retry count and conn (line 117). -/
inductive SendError where
  | finalFailure (conn table : String) (attempts : ℕ) (preview inner : String)
  | unreachable (conn : String) (attempts : ℕ)
deriving DecidableEq

inductive SendResult where
  | success
  | failure (e : SendError)
deriving DecidableEq

/-- Observable behaviour of one `send_request` call. -/
structure Outcome where
  attempts : ℕ
  sleeps : List ℕ
  result : SendResult
deriving DecidableEq

/-- The `for attempt in range(1, retries + 1)` loop of `send_request`,
over the remaining attempt numbers.  Per attempt: a 5xx status sleeps
`2 * attempt` and continues; a 2xx status returns; any other status
raises an HTTP-status exception *inside* the try, so it is
caught by the generic `except` like a network exception — on the last
attempt that raises the final-failure error, otherwise it sleeps
`2 * attempt` and retries.  An exhausted loop raises `unreachable`. -/
def sendAttempts (resp : ℕ → Resp) (conn table preview : String) (retries : ℕ) :
    List ℕ → ℕ → List ℕ → Outcome
  | [], done, sleeps => ⟨done, sleeps, .failure (.unreachable conn retries)⟩
  | a :: rest, done, sleeps =>
    match resp a with
    | .ok s =>
      if 500 ≤ s ∧ s < 600 then
        sendAttempts resp conn table preview retries rest (done + 1) (sleeps ++ [2 * a])
      else if 200 ≤ s ∧ s < 300 then
        ⟨done + 1, sleeps, .success⟩
      else if a = retries then
        ⟨done + 1, sleeps,
          .failure (.finalFailure conn table retries preview ("HTTP " ++ toString s))⟩
      else
        sendAttempts resp conn table preview retries rest (done + 1) (sleeps ++ [2 * a])
    | .exn e =>
      if a = retries then
        ⟨done + 1, sleeps, .failure (.finalFailure conn table retries preview e)⟩
      else
        sendAttempts resp conn table preview retries rest (done + 1) (sleeps ++ [2 * a])

/-- `send_request(conn, table_name, data, retries)`. -/
def send_request (resp : ℕ → Resp) (conn table preview : String) (retries : ℕ) : Outcome :=
  sendAttempts resp conn table preview retries (List.range' 1 retries) 0 []

/-- Number of `http.request` calls one `insert_data(dbms, table, payload)`
call makes for a single-table list payload (src/insert_data.py lines
119-156): first `send_request(conn, table, payload)` with the default
`retries=3` (lines 119-127), then — when that returned — the second,
duplicated direct `http.request` of the very same payload on a freshly
acquired connection (lines 139-156). -/
def insert_data_requestCount (resp : ℕ → Resp) (conn table preview : String) : ℕ :=
  let o := send_request resp conn table preview 3
  o.attempts + (match o.result with | .success => 1 | .failure _ => 0)

/-! ## Connection pool (`CONNS`, `get_conn`/`release_conn`)

`CONNS` is a dict from endpoint to busy flag, modelled as a function
`String → Bool`.  `get_conn` busy-waits for a free endpoint chosen by
`random.choice`; the choice is modelled by an explicit `pick` oracle
(the claims only concern the busy flags, which do not depend on *which*
free endpoint the random choice returns). -/

def Pool := String → Bool

/-- `CONNS[conn] = b`. -/
def setBusy (pool : Pool) (c : String) (b : Bool) : Pool :=
  fun x => if x = c then b else pool x

/-- The two payload shapes `insert_data` dispatches on: a plain list of
rows (single-table mode) or a dict of per-table row lists
(column-as-table mode), of which only the number of tables matters for
the busy flags. -/
inductive Payload where
  | list (rows : ℕ)
  | dict (tables : ℕ)

/-- Busy-flag effect of one `insert_data` call (src/insert_data.py
lines 119-156).  Phase one acquires `pick 0`, sends the payload inside
`try:` and releases in `finally:` — so it releases whether the send
returns or raises (`phase1Ok`); on a raise the function exits there.
When phase one returned, the payload is sent a *second* time: in dict
mode one connection per table is acquired (`pick (i + 1)`) and the
sends are submitted to a thread pool — no code path ever releases
these; in list mode a single connection `pick 1` is acquired and
released in `finally:`. -/
def insert_data_pool (pool : Pool) (pick : ℕ → String) (pl : Payload)
    (phase1Ok : Bool) : Pool :=
  let c1 := pick 0
  let afterPhase1 := setBusy (setBusy pool c1 true) c1 false
  if phase1Ok then
    match pl with
    | .dict tables =>
      (List.range tables).foldl (fun p i => setBusy p (pick (i + 1)) true) afterPhase1
    | .list _ =>
      let c2 := pick 1
      setBusy (setBusy afterPhase1 c2 true) c2 false
  else afterPhase1

/-- Busy-flag effect of one `insert_data` call in the src/main.py
variant (lines 59-88): the endpoint is acquired, and the busy flag is
cleared only in the `else:` branch on a 2xx response — on an exception
or a non-2xx status the function raises with the flag still set. -/
def main_insert_data_pool (pool : Pool) (c : String) (ok : Bool) : Pool :=
  if ok then setBusy (setBusy pool c true) c false
  else setBusy pool c true

/-! ## Scheduler (`main`, src/insert_data.py lines 227-263)

The `while True:` loop in row-count mode (`run_time == 0`, finite
`total_rows`): the stop test `total_inserted >= total_rows` runs at the
top of each iteration; then `batch_size = min(args.batch_size,
total_rows - total_inserted)` rows are generated (`range(batch_size)`
is empty when the value is non-positive), `insert_data` is submitted
and `total_inserted += batch_size` immediately — *before* any delivery
outcome is known; then `for future in as_completed(futures):
future.result()` re-raises the exception of any failed delivery, which
nothing catches, ending the loop (and the run).  `scheduler_run` takes
the delivery outcomes as an oracle `deliver` indexed by iteration and a
fuel bound on the number of iterations observed. -/

/-- `total` is `total_inserted`; `generated` counts rows actually
generated (batch lengths); `accepted` counts rows in batches whose
delivery succeeded (what the always-2xx endpoints accepted). -/
structure SchedState where
  total : ℤ
  generated : ℕ
  accepted : ℕ
deriving DecidableEq

/-- `finished`: the stop condition fired; `aborted`: the re-raised
exception of a failed delivery ended the run; `outOfFuel`: still
looping after `fuel` iterations. -/
inductive RunResult where
  | finished (s : SchedState)
  | aborted (s : SchedState)
  | outOfFuel (s : SchedState)
deriving DecidableEq

/-- The Python builtin `min` on two ints. -/
def pymin (a b : ℤ) : ℤ := if a ≤ b then a else b

def scheduler_run (deliver : ℕ → Bool) (batchSize ceiling : ℤ) :
    ℕ → ℕ → SchedState → RunResult
  | 0, _, s => .outOfFuel s
  | fuel + 1, i, s =>
    if ceiling ≤ s.total then .finished s
    else
      let bs := pymin batchSize (ceiling - s.total)
      let len := bs.toNat
      let s' : SchedState :=
        ⟨s.total + bs, s.generated + len, s.accepted + if deliver i then len else 0⟩
      if deliver i then scheduler_run deliver batchSize ceiling fuel (i + 1) s'
      else .aborted s'

/-- `threads = args.max_threads if len(list(CONNS.keys())) > args.max_threads > 0
else len(list(CONNS.keys()))` (src/insert_data.py line 202); this is the
`max_workers` bound of the `ThreadPoolExecutor`, an upper bound on the
worker threads it creates. -/
def thread_count (numConns : ℕ) (maxThreads : ℤ) : ℤ :=
  if maxThreads < numConns ∧ 0 < maxThreads then maxThreads else (numConns : ℤ)

/-! ## Helper lemmas -/

/-- Cross-multiplied monotonicity of natural division. -/
theorem natDiv_cross_mono {a b c d : ℕ} (hd : 0 < d) (h : a * d ≤ b * c) :
    a / c ≤ b / d := by
  rcases Nat.eq_zero_or_pos c with hc | hc
  · subst hc
    simp
  · rw [Nat.le_div_iff_mul_le hd]
    have h1 : a / c * c ≤ a := Nat.div_mul_le_self a c
    have h2 : a / c * d * c ≤ b * c := by
      calc a / c * d * c = a / c * c * d := by ring
        _ ≤ a * d := Nat.mul_le_mul_right d h1
        _ ≤ b * c := h
    exact Nat.le_of_mul_le_mul_right h2 hc

/-- One attempt answering 5xx: sleep `2 * a` and continue. -/
theorem sendAttempts_cons_5xx (resp : ℕ → Resp) (c t p : String) (R s a : ℕ)
    (rest : List ℕ) (done : ℕ) (sl : List ℕ)
    (hs : resp a = Resp.ok s) (h5 : 500 ≤ s ∧ s < 600) :
    sendAttempts resp c t p R (a :: rest) done sl =
      sendAttempts resp c t p R rest (done + 1) (sl ++ [2 * a]) := by
  simp only [sendAttempts, hs]
  rw [if_pos h5]

/-- One attempt answering 2xx: return successfully. -/
theorem sendAttempts_cons_2xx (resp : ℕ → Resp) (c t p : String) (R s a : ℕ)
    (rest : List ℕ) (done : ℕ) (sl : List ℕ)
    (hs : resp a = Resp.ok s) (h5 : ¬ (500 ≤ s ∧ s < 600))
    (h2 : 200 ≤ s ∧ s < 300) :
    sendAttempts resp c t p R (a :: rest) done sl =
      ⟨done + 1, sl, .success⟩ := by
  simp only [sendAttempts, hs]
  rw [if_neg h5, if_pos h2]

/-- A non-2xx/5xx status before the last attempt: the raised
HTTP-status exception is caught by the generic except, which sleeps
`2 * a` and retries. -/
theorem sendAttempts_cons_other_retry (resp : ℕ → Resp) (c t p : String)
    (R s a : ℕ) (rest : List ℕ) (done : ℕ) (sl : List ℕ)
    (hs : resp a = Resp.ok s) (h5 : ¬ (500 ≤ s ∧ s < 600))
    (h2 : ¬ (200 ≤ s ∧ s < 300)) (ha : ¬ a = R) :
    sendAttempts resp c t p R (a :: rest) done sl =
      sendAttempts resp c t p R rest (done + 1) (sl ++ [2 * a]) := by
  simp only [sendAttempts, hs]
  rw [if_neg h5, if_neg h2, if_neg ha]

/-- A non-2xx/5xx status on the last attempt: the caught exception is
re-raised as the final-failure error with the status code embedded. -/
theorem sendAttempts_cons_other_last (resp : ℕ → Resp) (c t p : String)
    (R s a : ℕ) (rest : List ℕ) (done : ℕ) (sl : List ℕ)
    (hs : resp a = Resp.ok s) (h5 : ¬ (500 ≤ s ∧ s < 600))
    (h2 : ¬ (200 ≤ s ∧ s < 300)) (ha : a = R) :
    sendAttempts resp c t p R (a :: rest) done sl =
      ⟨done + 1, sl,
        .failure (.finalFailure c t R p ("HTTP " ++ toString s))⟩ := by
  simp only [sendAttempts, hs]
  rw [if_neg h5, if_neg h2, if_pos ha]

/-- An all-5xx oracle drives `sendAttempts` through every remaining
attempt, sleeping `2 * a` after each (the last included), and falls out
of the loop into the unreachable error. -/
theorem sendAttempts_all503 (c t p : String) (R : ℕ) :
    ∀ (L : List ℕ) (done : ℕ) (sl : List ℕ),
      sendAttempts (fun _ => Resp.ok 503) c t p R L done sl =
        ⟨done + L.length, sl ++ L.map (fun a => 2 * a),
          .failure (.unreachable c R)⟩ := by
  intro L
  induction L with
  | nil => intro done sl; simp [sendAttempts]
  | cons a L ih =>
    intro done sl
    rw [sendAttempts_cons_5xx _ c t p R 503 a L done sl rfl (by omega)]
    rw [ih]
    simp [Outcome.mk.injEq, List.append_assoc]; omega

/-- A constant terminal-status oracle (neither 2xx nor 5xx) drives
`sendAttempts` through all remaining attempts `a .. a + m = R`, with a
back-off sleep after every attempt but the last, and the last attempt
raises the final-failure error embedding the status code. -/
theorem sendAttempts_terminal (c t p : String) (R s : ℕ)
    (h5 : ¬ (500 ≤ s ∧ s < 600)) (h2 : ¬ (200 ≤ s ∧ s < 300)) :
    ∀ (m a done : ℕ) (sl : List ℕ), a + m = R →
      sendAttempts (fun _ => Resp.ok s) c t p R (List.range' a (m + 1)) done sl =
        ⟨done + m + 1, sl ++ (List.range' a m).map (fun x => 2 * x),
          .failure (.finalFailure c t R p ("HTTP " ++ toString s))⟩ := by
  intro m
  induction m with
  | zero =>
    intro a done sl ha
    rw [List.range'_succ a 0 1]
    rw [sendAttempts_cons_other_last _ c t p R s a _ done sl rfl h5 h2 (by omega)]
    simp
  | succ n ih =>
    intro a done sl ha
    rw [List.range'_succ a (n + 1) 1]
    rw [sendAttempts_cons_other_retry _ c t p R s a _ done sl rfl h5 h2 (by omega)]
    rw [ih (a + 1) (done + 1) (sl ++ [2 * a]) (by omega)]
    rw [List.range'_succ a n 1]
    simp [Outcome.mk.injEq, List.append_assoc]; omega

/-- One iteration of the scheduler loop below the ceiling, delivery
succeeding: the batch is clamped, counted, generated and accepted, and
the loop continues. -/
theorem scheduler_run_step_ok (deliver : ℕ → Bool) (b c : ℤ) (fuel i : ℕ)
    (t : ℤ) (g a : ℕ) (h : ¬ c ≤ t) (hd : deliver i = true) :
    scheduler_run deliver b c (fuel + 1) i ⟨t, g, a⟩ =
      scheduler_run deliver b c fuel (i + 1)
        ⟨t + pymin b (c - t), g + (pymin b (c - t)).toNat,
          a + (pymin b (c - t)).toNat⟩ := by
  simp only [scheduler_run]
  rw [if_neg h]
  simp [hd]

/-- One iteration of the scheduler loop below the ceiling, delivery
failing: the batch is still clamped, counted into `total_inserted` and
generated, but not accepted, and the re-raised exception aborts the
run. -/
theorem scheduler_run_step_fail (deliver : ℕ → Bool) (b c : ℤ) (fuel i : ℕ)
    (t : ℤ) (g a : ℕ) (h : ¬ c ≤ t) (hd : deliver i = false) :
    scheduler_run deliver b c (fuel + 1) i ⟨t, g, a⟩ =
      .aborted ⟨t + pymin b (c - t), g + (pymin b (c - t)).toNat, a⟩ := by
  simp only [scheduler_run]
  rw [if_neg h]
  simp [hd]

/-- With every delivery succeeding and a batch size of at least one
row, the scheduler loop runs until `total_inserted` reaches the
ceiling exactly: the last batch is clamped to the remaining rows. -/
theorem scheduler_allOk (b c : ℤ) (hb : 1 ≤ b) :
    ∀ (fuel i : ℕ) (t : ℤ) (g a : ℕ), 0 ≤ t → t ≤ c → (c - t).toNat < fuel →
      scheduler_run (fun _ => true) b c fuel i ⟨t, g, a⟩ =
        .finished ⟨c, g + (c - t).toNat, a + (c - t).toNat⟩ := by
  intro fuel
  induction fuel with
  | zero => intro i t g a h0 h1 h2; omega
  | succ n ih =>
    intro i t g a h0 h1 h2
    by_cases hc : c ≤ t
    · have ht : t = c := le_antisymm h1 hc
      subst ht
      rw [scheduler_run]
      rw [if_pos le_rfl]
      simp
    · have hbs1 : 1 ≤ pymin b (c - t) := by unfold pymin; split <;> omega
      have hbs2 : pymin b (c - t) ≤ c - t := by unfold pymin; split <;> omega
      rw [scheduler_run_step_ok (fun _ => true) b c n i t g a hc rfl]
      rw [ih (i + 1) (t + pymin b (c - t)) _ _ (by omega) (by omega) (by omega)]
      simp [RunResult.finished.injEq, SchedState.mk.injEq]; omega

/-! ## Claims -/

/-- C1: in row-count mode with column count 2 and size specification
1MB, the size planner returns row ceiling
floor(1048576 / 24) = 43690 (per-row size 8 * C + 8 = 24 bytes), and a
run driven to completion with every delivery succeeding (always-2xx
endpoints) terminates with total accepted rows exactly 43690, for any
positive batch size: the scheduler clamps the last batch to the
remaining rows, so the ceiling is hit exactly and never exceeded. -/
theorem c1_size_1MB_hits_ceiling_exactly :
    calculate_row_count 2 "1MB" = some (["column_1", "column_2"], 43690) ∧
    ∀ b : ℤ, 1 ≤ b →
      scheduler_run (fun _ => true) b 43690 43691 0 ⟨0, 0, 0⟩ =
        .finished ⟨43690, 43690, 43690⟩ := by
  refine ⟨by decide, fun b hb => ?_⟩
  have h := scheduler_allOk b 43690 hb 43691 0 0 0 0 (by omega) (by omega) (by decide)
  rw [h]
  decide

/-- C1 witness: the run with the default batch size 10. -/
theorem c1_witness_batch10 :
    (1 : ℤ) ≤ 10 ∧
    scheduler_run (fun _ => true) 10 43690 43691 0 ⟨0, 0, 0⟩ =
      .finished ⟨43690, 43690, 43690⟩ :=
  ⟨by decide, c1_size_1MB_hits_ceiling_exactly.2 10 (by decide)⟩

/-- C2 counterexample: the claim says a failed delivery leaves the
accepted-row total unchanged and does not abort the run.  In the code,
`total_inserted` is incremented by the batch size at submission time,
before any delivery outcome is checked, and the exception re-raised by
`future.result()` is not caught, so with the first delivery failing the
run aborts with the failed rows counted: the result is `aborted` with
`total_inserted = 10` (not `finished` at the ceiling with total 0). -/
theorem c2_counterexample_failed_batch_counted :
    scheduler_run (fun _ => false) 10 43690 43691 0 ⟨0, 0, 0⟩ =
      .aborted ⟨10, 10, 0⟩ := by decide

/-- C2 (amended): when a delivery fails, the batch has already been
counted into `total_inserted` (the reported row total), and the failure
aborts the run — the scheduler loop ends via the re-raised exception
instead of its own stopping condition.  Only the endpoint-side accepted
count `accepted` excludes the failed batch. -/
theorem c2_failed_delivery_counted_and_aborts (deliver : ℕ → Bool)
    (b c : ℤ) (fuel i : ℕ) (t : ℤ) (g a : ℕ)
    (hd : deliver i = false) (ht : t < c) :
    scheduler_run deliver b c (fuel + 1) i ⟨t, g, a⟩ =
      .aborted ⟨t + pymin b (c - t), g + (pymin b (c - t)).toNat, a⟩ :=
  scheduler_run_step_fail deliver b c fuel i t g a (by omega) hd

/-- C2 witness: first delivery fails at total 0 with batch size 10. -/
theorem c2_witness :
    scheduler_run (fun _ => false) 10 43690 1 0 ⟨0, 0, 0⟩ =
      .aborted ⟨10, 10, 0⟩ := by
  have h := c2_failed_delivery_counted_and_aborts (fun _ => false) 10 43690 0 0 0
    0 0 rfl (by decide)
  exact h.trans (by decide)

/-- C3: the claim says every endpoint acquired by `insert_data` is
released on every exit path.  Evaluating the code at the failing input:
in column-as-table (dict) mode with one table, a single free endpoint
and all deliveries succeeding, the endpoint acquired for the per-table
parallel send phase is never released — after the call returns it is
still marked busy.  The src/main.py variant likewise leaves the
endpoint busy when the request fails. -/
theorem c3_acquired_endpoints_left_busy :
    insert_data_pool (fun _ => false) (fun _ => "ep") (.dict 1) true "ep" = true ∧
    main_insert_data_pool (fun _ => false) "ep" false "ep" = true := by decide

/-- C4: with an endpoint answering 503 on the first two attempts and
any 2xx status on the third, `send_request` succeeds, makes exactly 3
attempts, and sleeps backoff(attempt) = 2 * attempt seconds between
consecutive attempts — 2 s after the first and 4 s after the second —
so the backoff intervals are strictly increasing. -/
theorem c4_two_503_then_2xx_increasing_backoff (s : ℕ) (c t p : String)
    (h2a : 200 ≤ s) (h2b : s < 300) :
    send_request (fun a => if a ≤ 2 then Resp.ok 503 else Resp.ok s) c t p 3 =
      ⟨3, [2, 4], .success⟩ ∧ List.Chain' (fun x y => x < y) [2, 4] := by
  refine ⟨?_, by simp [List.chain'_cons]⟩
  unfold send_request
  rw [show List.range' 1 3 = [1, 2, 3] by decide]
  rw [sendAttempts_cons_5xx _ c t p 3 503 1 _ _ _ (by norm_num) (by omega)]
  rw [sendAttempts_cons_5xx _ c t p 3 503 2 _ _ _ (by norm_num) (by omega)]
  rw [sendAttempts_cons_2xx _ c t p 3 s 3 _ _ _ (by norm_num) (by omega) ⟨h2a, h2b⟩]
  decide

/-- C4 witness: the 503, 503, 200 scenario. -/
theorem c4_witness_200 :
    send_request (fun a => if a ≤ 2 then Resp.ok 503 else Resp.ok 200)
        "ep" "tbl" "pv" 3 =
      ⟨3, [2, 4], .success⟩ ∧ List.Chain' (fun x y => x < y) [2, 4] :=
  c4_two_503_then_2xx_increasing_backoff 200 "ep" "tbl" "pv" (by decide) (by decide)

/-- C5 counterexample: the claim says that after R all-5xx attempts the
raised error carries the endpoint, the table name, the attempt count
and a truncated payload preview.  With R = 3 and an endpoint always
answering 503, the 5xx branch sleeps and continues even on the last
attempt, so the loop falls through to the bare unreachable error, which
carries only the endpoint and the attempt count — it is not the
final-failure error, the only one carrying a table name and payload
preview. -/
theorem c5_counterexample_error_lacks_table_and_preview :
    send_request (fun _ => Resp.ok 503) "ep" "tbl" "pv" 3 =
      ⟨3, [2, 4, 6], .failure (.unreachable "ep" 3)⟩ ∧
    SendError.unreachable "ep" 3 ≠
      SendError.finalFailure "ep" "tbl" 3 "pv" "HTTP 503" := by decide

/-- C5 (amended): with the endpoint answering 503 on every attempt,
`send_request` makes exactly R attempts (sleeping 2 * attempt after
each one, the last included) and then fails with the unreachable error,
which carries the endpoint and the attempt count — but not the table
name or a payload preview. -/
theorem c5_all_503_exactly_R_attempts_unreachable (c t p : String) (R : ℕ) :
    send_request (fun _ => Resp.ok 503) c t p R =
      ⟨R, (List.range' 1 R).map (fun a => 2 * a),
        .failure (.unreachable c R)⟩ := by
  unfold send_request
  rw [sendAttempts_all503]
  simp [List.length_range']

/-- C6 counterexample: the claim says a non-2xx/5xx response (e.g.
404) raises immediately, with no retries and no backoff sleep.  With an
endpoint always answering 404 and R = 3, the code makes 3 attempts with
backoff sleeps 2 and 4: the HTTP-status exception raised inside the try
is caught by the generic except, which retries like any other error. -/
theorem c6_counterexample_404_retried_with_backoff :
    (send_request (fun _ => Resp.ok 404) "ep" "tbl" "pv" 3).attempts = 3 ∧
    (send_request (fun _ => Resp.ok 404) "ep" "tbl" "pv" 3).sleeps = [2, 4] := by
  decide

/-- C6 (amended): a status outside 2xx and 5xx raises an exception with
the status code embedded, but that exception is caught by the generic
except handler and retried with backoff like any other failure; the
call fails only on the R-th attempt, with the status code embedded in
the final-failure error. -/
theorem c6_terminal_status_caught_and_retried (s : ℕ) (c t p : String) (R : ℕ)
    (h5 : ¬ (500 ≤ s ∧ s < 600)) (h2 : ¬ (200 ≤ s ∧ s < 300)) (hR : 1 ≤ R) :
    send_request (fun _ => Resp.ok s) c t p R =
      ⟨R, (List.range' 1 (R - 1)).map (fun x => 2 * x),
        .failure (.finalFailure c t R p ("HTTP " ++ toString s))⟩ := by
  unfold send_request
  obtain ⟨m, rfl⟩ : ∃ m, R = m + 1 := ⟨R - 1, by omega⟩
  rw [sendAttempts_terminal c t p (m + 1) s h5 h2 m 1 0 [] (by omega)]
  simp

/-- C6 witness: always-404 with the default three retries. -/
theorem c6_witness_404 :
    send_request (fun _ => Resp.ok 404) "ep" "tbl" "pv" 3 =
      ⟨3, [2, 4], .failure (.finalFailure "ep" "tbl" 3 "pv" "HTTP 404")⟩ := by
  have h := c6_terminal_status_caught_and_retried 404 "ep" "tbl" "pv" 3
    (by omega) (by omega) (by omega)
  exact h.trans (by decide)

/-- C7: the claim says a successful pass through the ingestion path
issues exactly one network request carrying the batch.  Evaluating the
code with an always-200 endpoint in single-table mode: `insert_data`
transmits the batch twice — once through `send_request` (one attempt on
success) and once more through the duplicated direct request in its
second half — so the request count is 2, not 1. -/
theorem c7_successful_pass_sends_batch_twice :
    insert_data_requestCount (fun _ => Resp.ok 200) "ep" "tbl" "pv" = 2 ∧
    insert_data_requestCount (fun _ => Resp.ok 200) "ep" "tbl" "pv" ≠ 1 := by
  decide

/-- C8: for every endpoint count E and configured maximum thread count
m ≥ 0, the worker-pool size the scheduler passes to its executor never
exceeds min(m, 2 * E), with m = 0 meaning unconstrained (bound 2 * E);
the code actually enforces the tighter bound min(m, E). -/
theorem c8_thread_count_bounded (E : ℕ) (m : ℤ) (hm : 0 ≤ m) :
    thread_count E m ≤ if m = 0 then 2 * (E : ℤ) else min m (2 * (E : ℤ)) := by
  unfold thread_count
  simp only [min_def]
  split_ifs <;> omega

/-- C8 witness: 4 endpoints with a configured maximum of 3. -/
theorem c8_witness :
    thread_count 4 3 ≤ if (3 : ℤ) = 0 then 2 * ((4 : ℕ) : ℤ) else min 3 (2 * ((4 : ℕ) : ℤ)) :=
  c8_thread_count_bounded 4 3 (by decide)

/-- C9: for valid unit-suffixed size strings parsed to the same unit
with multiplier `mult`, the size planner returns a row ceiling that is
non-negative and monotone in the numeric part: if the number in `s` is
at most the number in `t` (as exact decimals, compared by
cross-multiplication), the ceiling for `s` is at most the ceiling for
`t`, for any fixed column count. -/
theorem c9_row_ceiling_nonneg_and_monotone (C : ℕ) (s t u : String)
    (x y : SizeNum) (mult : ℕ)
    (hs : s.data.all Char.isDigit = false)
    (ht : t.data.all Char.isDigit = false)
    (hps : parseSizeStr s = some (x, u))
    (hpt : parseSizeStr t = some (y, u))
    (hmult : size_multiplier u = some mult)
    (hle : x.mantissa * 10 ^ y.scale ≤ y.mantissa * 10 ^ x.scale) :
    ∀ r r' : ℤ,
      calculate_row_count C s = some (column_names C, r) →
      calculate_row_count C t = some (column_names C, r') →
      0 ≤ r ∧ r ≤ r' := by
  intro r r' hr hr'
  have hcs : (s.data ≠ [] ∧ s.data.all Char.isDigit) = False := by simp [hs]
  have hct : (t.data ≠ [] ∧ t.data.all Char.isDigit) = False := by simp [ht]
  simp only [calculate_row_count, hcs, hct, if_false, hps, hpt, hmult,
    Option.some.injEq, Prod.mk.injEq, true_and] at hr hr'
  have key : x.mantissa * mult / (10 ^ x.scale * (C * 8 + 8)) ≤
      y.mantissa * mult / (10 ^ y.scale * (C * 8 + 8)) := by
    apply natDiv_cross_mono
    · positivity
    · calc x.mantissa * mult * (10 ^ y.scale * (C * 8 + 8))
          = x.mantissa * 10 ^ y.scale * (mult * (C * 8 + 8)) := by ring
        _ ≤ y.mantissa * 10 ^ x.scale * (mult * (C * 8 + 8)) :=
            Nat.mul_le_mul_right _ hle
        _ = y.mantissa * mult * (10 ^ x.scale * (C * 8 + 8)) := by ring
  constructor
  · rw [← hr]
    exact Int.natCast_nonneg _
  · rw [← hr, ← hr']
    exact_mod_cast key

/-- C9 witness: 2KB versus 3KB at column count 2 (ceilings 85 and 128). -/
theorem c9_witness :
    calculate_row_count 2 "2KB" = some (column_names 2, 85) ∧
    calculate_row_count 2 "3KB" = some (column_names 2, 128) ∧
    (0 : ℤ) ≤ 85 ∧ (85 : ℤ) ≤ 128 :=
  ⟨by decide, by decide,
    c9_row_ceiling_nonneg_and_monotone 2 "2KB" "3KB" "KB" ⟨2, 0⟩ ⟨3, 0⟩ 1024
      (by decide) (by decide) (by decide) (by decide) (by decide) (by decide)
      85 128 (by decide) (by decide)⟩

/-- C10: with a non-positive configured batch size, run time 0 and a
positive finite row ceiling, the scheduler loop never terminates: for
every fuel bound it is still looping, each iteration generates an empty
batch (`generated` never grows), and `total_inserted` never increases
(it decreases by the negative batch size each iteration), so the
stopping condition `total_inserted ≥ ceiling` is never reached. -/
theorem c10_nonpositive_batch_never_terminates (b c : ℤ)
    (hb : b ≤ 0) (hc : 1 ≤ c) :
    ∀ (fuel i : ℕ) (t : ℤ) (g a : ℕ), t ≤ 0 →
      scheduler_run (fun _ => true) b c fuel i ⟨t, g, a⟩ =
        .outOfFuel ⟨t + fuel * b, g, a⟩ := by
  intro fuel
  induction fuel with
  | zero =>
    intro i t g a ht
    simp [scheduler_run]
  | succ n ih =>
    intro i t g a ht
    have hguard : ¬ c ≤ t := by omega
    have hmin : pymin b (c - t) = b := by unfold pymin; split <;> omega
    have hnat : b.toNat = 0 := by omega
    rw [scheduler_run_step_ok (fun _ => true) b c n i t g a hguard rfl]
    rw [hmin, hnat]
    simp only [Nat.add_zero]
    rw [ih (i + 1) (t + b) g a (by omega)]
    simp only [RunResult.outOfFuel.injEq, SchedState.mk.injEq, and_true, true_and]
    push_cast
    ring

/-- C10 witness: batch size 0, ceiling 1, three observed iterations. -/
theorem c10_witness :
    scheduler_run (fun _ => true) 0 1 3 0 ⟨0, 0, 0⟩ = .outOfFuel ⟨0, 0, 0⟩ := by
  have h := c10_nonpositive_batch_never_terminates 0 1 (by decide) (by decide)
    3 0 0 0 0 (by decide)
  exact h.trans (by decide)

end PerfTest
